import Mathlib

/-!
Shallow embedding of the enchannel-zmq-backend source (src/index.ts).

The repository wires four jmp ZeroMQ sockets (shell, control, stdin, iopub)
into one duplex rxjs channel.  We embed:

  * the data model (connection config, channel names, messages);
  * the pure address resolver formConnectionString;
  * the effect trace of createSocket (which constructs a socket, assigns its
    identity, resolves the address — possibly raising a config error — and
    then begins connecting);
  * the multiplexer built by createMainChannelFromSockets, as a deterministic
    state machine: the sink next handler, the sink complete handler (teardown),
    and the rxjs subscription machinery the code relies on (SafeSubscriber
    stopped-guard, publish/refCount listener attachment, fromEvent per-socket
    message listeners), modelled from the rxjs 6 semantics the code imports;
  * the inbound per-event transform (stamp channel name, strip idents).

JavaScript objects whose fields the claims inspect (message headers) are
modelled as association lists with first-match lookup; object spread is
modelled by its field-lookup semantics (override keys win, remaining base
keys preserved).  Numbers that the code tests for JS falsiness (ports) are
modelled as Option Nat where none stands for an absent/undefined field and
some 0 for the number zero, both falsy.
-/

namespace EnchannelZmq

/-- Transport kind of the connection config: the TS union "tcp" | "ipc". -/
inductive Transport
  | tcp
  | ipc
deriving Repr, DecidableEq

/-- The literal transport string used when forming a connection string. -/
def Transport.str : Transport → String
  | Transport.tcp => "tcp"
  | Transport.ipc => "ipc"

/-- The four Jupyter channel names (type ChannelName in the source). -/
inductive ChannelName
  | iopub
  | stdin
  | shell
  | control
deriving Repr, DecidableEq

/-- The string form of a channel name, as used in error messages and as the
object key of the sockets map. -/
def ChannelName.str : ChannelName → String
  | ChannelName.iopub => "iopub"
  | ChannelName.stdin => "stdin"
  | ChannelName.shell => "shell"
  | ChannelName.control => "control"

/-- The static ZMQType.frontend table: iopub is a sub socket, the other three
are dealer sockets. -/
def ZMQTypeFrontend : ChannelName → String
  | ChannelName.iopub => "sub"
  | ChannelName.stdin => "dealer"
  | ChannelName.shell => "dealer"
  | ChannelName.control => "dealer"

/-- JupyterConnectionInfo.  Ports are numbers in the TS interface, but the
code guards against JS-falsy values (0, undefined), so a port is modelled as
Option Nat with none standing for an absent/undefined field. -/
structure JupyterConnectionInfo where
  version : Nat
  iopub_port : Option Nat
  shell_port : Option Nat
  stdin_port : Option Nat
  control_port : Option Nat
  signature_scheme : String
  hb_port : Option Nat
  ip : String
  key : String
  transport : Transport
deriving Repr, DecidableEq

/-- The dynamic key access config[channel ++ "_port"] of the source. -/
def channelPort (config : JupyterConnectionInfo) : ChannelName → Option Nat
  | ChannelName.iopub => config.iopub_port
  | ChannelName.stdin => config.stdin_port
  | ChannelName.shell => config.shell_port
  | ChannelName.control => config.control_port

/-- JS falsiness of a (possibly absent) numeric port: absent/undefined and 0
are falsy, every other natural number is truthy. -/
def jsFalsyPort : Option Nat → Bool
  | none => true
  | some 0 => true
  | some (_ + 1) => false

/-- formConnectionString from the source: picks ":" as the port delimiter for
tcp and "-" for ipc, throws when the port of the requested channel is falsy,
and otherwise returns transport ++ "://" ++ ip ++ delimiter ++ port.  The
thrown error is modelled as Except.error. -/
def formConnectionString (config : JupyterConnectionInfo)
    (channel : ChannelName) : Except String String :=
  let portDelimiter := if config.transport = Transport.tcp then ":" else "-"
  let port := channelPort config channel
  if jsFalsyPort port = true then
    Except.error ("Port not found for channel \"" ++ channel.str ++ "\"")
  else
    Except.ok (config.transport.str ++ "://" ++ config.ip ++ portDelimiter
      ++ toString (port.getD 0))

/-- One observable step of createSocket, in source order. -/
inductive CreateSocketStep
  | constructSocket (zmqType : String) (scheme : String) (key : String)
  | setIdentity (identity : String)
  | raiseConfigError (msg : String)
  | beginConnect (url : String)
deriving Repr, DecidableEq

/-- True exactly on a constructSocket step. -/
def isConstructStep : CreateSocketStep → Bool
  | CreateSocketStep.constructSocket _ _ _ => true
  | _ => false

/-- True exactly on a raiseConfigError step. -/
def isConfigErrorStep : CreateSocketStep → Bool
  | CreateSocketStep.raiseConfigError _ => true
  | _ => false

/-- True exactly on a beginConnect step. -/
def isConnectStep : CreateSocketStep → Bool
  | CreateSocketStep.beginConnect _ => true
  | _ => false

/-- The sequence of observable steps createSocket performs, in the order of
the source: it constructs the jmp socket with the frontend ZMQ type, the
scheme obtained by slicing the "hmac-" prefix off signature_scheme, and the
config key; assigns the identity; then resolves the address with
formConnectionString — which throws the config error — and, when resolution
succeeds, hands the socket and url to verifiedConnect, which monitors and
connects. -/
def createSocketTrace (channel : ChannelName) (identity : String)
    (config : JupyterConnectionInfo) : List CreateSocketStep :=
  let zmqType := ZMQTypeFrontend channel
  let scheme := config.signature_scheme.drop 5
  [CreateSocketStep.constructSocket zmqType scheme config.key,
   CreateSocketStep.setIdentity identity] ++
  (match formConnectionString config channel with
   | Except.error e => [CreateSocketStep.raiseConfigError e]
   | Except.ok url => [CreateSocketStep.beginConnect url])

/-- First-match lookup of a field in an object modelled as an association
list. -/
def fieldLookup : List (String × String) → String → Option String
  | [], _ => none
  | p :: rest, k => if p.1 = k then some p.2 else fieldLookup rest k

/-- JS object spread { ...base, ...overrides }, modelled by its field-lookup
semantics: a key present in overrides takes the overrides value, every other
key of base keeps its base value. -/
def jsSpread (base overrides : List (String × String)) :
    List (String × String) :=
  (base.filterMap fun p =>
    if (fieldLookup overrides p.1).isSome then none else some p) ++ overrides

/-- HeaderFiller from the source: the session metadata of the multiplexer. -/
structure HeaderFiller where
  session : String
  username : String
deriving Repr, DecidableEq

/-- The HeaderFiller viewed as a JS object. -/
def fillerFields (h : HeaderFiller) : List (String × String) :=
  [("session", h.session), ("username", h.username)]

/-- A caller-side JupyterMessage presented to the sink.  channel is Option
String, none standing for an absent/undefined channel tag; content and
metadata are opaque payloads; buffers is the optional buffer list. -/
structure JupyterMessage where
  channel : Option String
  header : List (String × String)
  parent_header : List (String × String)
  content : String
  metadata : String
  buffers : Option (List String)
deriving Repr, DecidableEq

/-- The jmp.Message the sink constructs and hands to socket.send.  The source
sets header, parent_header, content, metadata and buffers; idents is left to
its constructor default and is not modelled. -/
structure JmpMessage where
  header : List (String × String)
  parent_header : List (String × String)
  content : String
  metadata : String
  buffers : Option (List String)
deriving Repr, DecidableEq

/-- The message the sink builds for a routed JupyterMessage: the session
header is spread over the caller header ({ ...message.header, ...header }),
and the four other fields are copied unchanged. -/
def mkJmpMessage (hdr : HeaderFiller) (m : JupyterMessage) : JmpMessage :=
  { header := jsSpread m.header (fillerFields hdr)
    parent_header := m.parent_header
    content := m.content
    metadata := m.metadata
    buffers := m.buffers }

/-- A jmp socket as the multiplexer observes it: its attached event
listeners, how many times close has been invoked on it, whether it exposes a
close method (the code guards socket.close before calling it), whether its
send currently raises a transport error (environment behaviour), and the
messages successfully handed to send. -/
structure Socket where
  listeners : Nat
  closeCount : Nat
  hasClose : Bool
  sendRaises : Bool
  sent : List JmpMessage
deriving Repr, DecidableEq

/-- First-match lookup in the sockets object (keys are channel strings). -/
def lookupSocket : List (String × Socket) → String → Option Socket
  | [], _ => none
  | p :: rest, name => if p.1 = name then some p.2 else lookupSocket rest name

/-- In-place mutation of the socket stored under a key. -/
def updateSocket (sockets : List (String × Socket)) (name : String)
    (f : Socket → Socket) : List (String × Socket) :=
  sockets.map fun p => if p.1 = name then (p.1, f p.2) else p

/-- Mutation applied to every socket of the map (Object.keys(...).forEach). -/
def mapSockets (f : Socket → Socket) (sockets : List (String × Socket)) :
    List (String × Socket) :=
  sockets.map fun p => (p.1, f p.2)

/-- Console effects of the sink next handler. -/
inductive Effect
  | warnNoChannel (msg : Option JupyterMessage)
  | warnUnknownChannel (msg : JupyterMessage)
  | errorSending (msg : JupyterMessage)
deriving Repr, DecidableEq

/-- True on the two console.warn effects, false on console.error. -/
def Effect.isWarning : Effect → Bool
  | Effect.warnNoChannel _ => true
  | Effect.warnUnknownChannel _ => true
  | Effect.errorSending _ => false

/-- JS truthiness of the optional channel tag: undefined and "" are falsy. -/
def truthyChannel : Option String → Option String
  | none => none
  | some "" => none
  | some s => some s

/-- The body of the sink next handler (outgoingMessages in the source):
a falsy message or a falsy message.channel is dropped with a warning; a
channel with no socket in the map is dropped with a warning; otherwise the
jmp message is built and handed to socket.send inside try/catch — a raising
send logs console.error and drops the message.  Returns the updated sockets
map and the console effects. -/
def outgoingNext (hdr : HeaderFiller) (message : Option JupyterMessage)
    (sockets : List (String × Socket)) :
    List (String × Socket) × List Effect :=
  match message with
  | none => (sockets, [Effect.warnNoChannel none])
  | some m =>
    match truthyChannel m.channel with
    | none => (sockets, [Effect.warnNoChannel (some m)])
    | some ch =>
      match lookupSocket sockets ch with
      | none => (sockets, [Effect.warnUnknownChannel m])
      | some socket =>
        if socket.sendRaises then
          (sockets, [Effect.errorSending m])
        else
          (updateSocket sockets ch
            (fun s => { s with sent := s.sent ++ [mkJmpMessage hdr m] }), [])

/-- The sink complete handler applied to one socket: removeAllListeners, then
close() when the socket has a close method. -/
def teardownSocket (sk : Socket) : Socket :=
  { sk with
    listeners := 0
    closeCount := if sk.hasClose then sk.closeCount + 1 else sk.closeCount }

/-- fromEvent subscribing: one "message" listener attached per socket. -/
def addMessageListener (sockets : List (String × Socket)) :
    List (String × Socket) :=
  mapSockets (fun sk => { sk with listeners := sk.listeners + 1 }) sockets

/-- fromEvent teardown: the one "message" listener it attached is removed
from each socket. -/
def removeMessageListener (sockets : List (String × Socket)) :
    List (String × Socket) :=
  mapSockets (fun sk => { sk with listeners := sk.listeners - 1 }) sockets

/-- State of the duplex channel produced by createMainChannelFromSockets:
the owned sockets, the rxjs SafeSubscriber stopped flag of the sink, and the
refCount of consumers of the merged source. -/
structure MuxState where
  sockets : List (String × Socket)
  sinkStopped : Bool
  refCount : Nat
deriving Repr, DecidableEq

/-- Actions on the duplex channel: a value pushed into the sink (possibly a
JS null/undefined), completion of the sink, and subscription or
unsubscription of a consumer of the merged source. -/
inductive MuxAction
  | sinkNext (msg : Option JupyterMessage)
  | sinkComplete
  | subscribe
  | unsubscribe
deriving Repr, DecidableEq

/-- Deterministic step of the duplex channel, following the source wiring on
top of rxjs 6 semantics: a stopped SafeSubscriber ignores next and complete;
complete marks the sink stopped and runs the teardown handler over every
socket (removeAllListeners, then close when present); the first subscriber
makes publish/refCount connect, attaching the fromEvent "message" listener on
every socket; when the last consumer unsubscribes, refCount disconnects and
the fromEvent teardown removes that listener — nothing else. -/
def muxStep (hdr : HeaderFiller) (s : MuxState) (a : MuxAction) :
    MuxState × List Effect :=
  match a with
  | MuxAction.sinkNext msg =>
    if s.sinkStopped then (s, [])
    else
      let r := outgoingNext hdr msg s.sockets
      ({ s with sockets := r.1 }, r.2)
  | MuxAction.sinkComplete =>
    if s.sinkStopped then (s, [])
    else
      ({ s with
          sinkStopped := true
          sockets := mapSockets teardownSocket s.sockets }, [])
  | MuxAction.subscribe =>
    let socks := if s.refCount = 0 then addMessageListener s.sockets
                 else s.sockets
    ({ s with refCount := s.refCount + 1, sockets := socks }, [])
  | MuxAction.unsubscribe =>
    if s.refCount = 0 then (s, [])
    else if s.refCount = 1 then
      ({ s with refCount := 0, sockets := removeMessageListener s.sockets },
        [])
    else ({ s with refCount := s.refCount - 1 }, [])

/-- An inbound event body as received from a socket.  idents is Option with
none standing for an absent field (delete removes the property). -/
structure IncomingBody where
  idents : Option (List String)
  channel : Option String
  header : List (String × String)
  parent_header : List (String × String)
  content : String
  metadata : String
  buffers : Option (List String)
deriving Repr, DecidableEq

/-- The fromEvent map of the inbound path: spread the body, stamp the socket
channel name, delete idents. -/
def routeIncoming (name : String) (body : IncomingBody) : IncomingBody :=
  { body with channel := some name, idents := none }

/-- Boolean discriminator for the error case of the resolver result. -/
def exceptHasError : Except String String → Bool
  | Except.error _ => true
  | Except.ok _ => false

/-- Concrete connection config whose shell port is absent. -/
def badConfig : JupyterConnectionInfo :=
  { version := 5
    iopub_port := some 9001
    shell_port := none
    stdin_port := some 9002
    control_port := some 9003
    signature_scheme := "hmac-sha256"
    hb_port := some 9004
    ip := "127.0.0.1"
    key := "secret"
    transport := Transport.tcp }

/-- Concrete tcp connection config with all ports present and non-zero. -/
def tcpConfig : JupyterConnectionInfo :=
  { version := 5
    iopub_port := some 5556
    shell_port := some 5555
    stdin_port := some 5557
    control_port := some 5558
    signature_scheme := "hmac-sha256"
    hb_port := some 5559
    ip := "127.0.0.1"
    key := "secret"
    transport := Transport.tcp }

/-- Concrete ipc connection config with all ports present and non-zero. -/
def ipcConfig : JupyterConnectionInfo :=
  { tcpConfig with ip := "/tmp/x", transport := Transport.ipc }

/-- A healthy connected socket: one connect listener left by verifiedConnect
plus one fromEvent message listener, never closed, send succeeding. -/
def liveSocket : Socket :=
  { listeners := 2, closeCount := 0, hasClose := true, sendRaises := false
    sent := [] }

/-- A socket whose send raises a transport error. -/
def failingSocket : Socket :=
  { listeners := 2, closeCount := 0, hasClose := true, sendRaises := true
    sent := [] }

/-- The four owned sockets of one multiplexer instance. -/
def fourSockets : List (String × Socket) :=
  [("shell", liveSocket), ("control", liveSocket), ("stdin", liveSocket),
   ("iopub", liveSocket)]

/-- An open duplex channel with one consumer subscribed. -/
def openState : MuxState :=
  { sockets := fourSockets, sinkStopped := false, refCount := 1 }

/-- An open duplex channel whose shell socket raises on send. -/
def failingState : MuxState :=
  { sockets := [("shell", failingSocket), ("control", liveSocket),
      ("stdin", liveSocket), ("iopub", liveSocket)]
    sinkStopped := false
    refCount := 1 }

/-- The session header of the sample multiplexer instance. -/
def mainHeader : HeaderFiller :=
  { session := "session-1", username := "user-1" }

/-- A caller message on the shell channel carrying its own session and
username header fields. -/
def callerMessage : JupyterMessage :=
  { channel := some "shell"
    header := [("msg_id", "m-1"), ("session", "caller-session"),
      ("username", "caller-user")]
    parent_header := [("msg_id", "p-1")]
    content := "content-1"
    metadata := "metadata-1"
    buffers := none }

/-- A caller message on the iopub channel with buffers attached. -/
def iopubMessage : JupyterMessage :=
  { channel := some "iopub"
    header := [("msg_id", "m-2"), ("session", "caller-session")]
    parent_header := [("msg_id", "p-2")]
    content := "content-2"
    metadata := "metadata-2"
    buffers := some ["buf-1", "buf-2"] }

/-- A caller message whose channel tag matches no socket. -/
def strayMessage : JupyterMessage :=
  { channel := some "bogus"
    header := [("msg_id", "m-3")]
    parent_header := []
    content := "content-3"
    metadata := "metadata-3"
    buffers := none }

/-! Helper lemmas about lookups. -/

theorem fieldLookup_jsSpread_override (base overrides : List (String × String))
    (k v : String) (h : fieldLookup overrides k = some v) :
    fieldLookup (jsSpread base overrides) k = some v := by
  induction base with
  | nil => simpa [jsSpread, fieldLookup] using h
  | cons p rest ih =>
    simp only [jsSpread, List.filterMap_cons] at ih ⊢
    cases hov : fieldLookup overrides p.1 with
    | some w => simpa [hov] using ih
    | none =>
      by_cases hpk : p.1 = k
      · rw [hpk] at hov
        rw [hov] at h
        exact absurd h (by simp)
      · simpa [hov, fieldLookup, hpk] using ih

theorem lookupSocket_updateSocket (sockets : List (String × Socket))
    (name : String) (f : Socket → Socket) :
    lookupSocket (updateSocket sockets name f) name =
      (lookupSocket sockets name).map f := by
  induction sockets with
  | nil => rfl
  | cons p rest ih =>
    by_cases h : p.1 = name
    · simp [updateSocket, lookupSocket, h]
    · simpa [updateSocket, lookupSocket, h] using ih

theorem lookupSocket_mapSockets (f : Socket → Socket)
    (sockets : List (String × Socket)) (name : String) :
    lookupSocket (mapSockets f sockets) name =
      (lookupSocket sockets name).map f := by
  induction sockets with
  | nil => rfl
  | cons p rest ih =>
    by_cases h : p.1 = name
    · simp [mapSockets, lookupSocket, h]
    · simpa [mapSockets, lookupSocket, h] using ih

/-- C4: for every config and channel whose port is present and non-zero, the
address resolver returns transport ++ "://" ++ ip ++ delimiter ++ port, the
delimiter being ":" for tcp and "-" for ipc. -/
theorem formConnectionString_formats (config : JupyterConnectionInfo)
    (channel : ChannelName) (p : Nat)
    (hp : channelPort config channel = some p) (hnz : p ≠ 0) :
    formConnectionString config channel =
      Except.ok (config.transport.str ++ "://" ++ config.ip
        ++ (if config.transport = Transport.tcp then ":" else "-")
        ++ toString p) := by
  unfold formConnectionString
  rw [hp]
  cases p with
  | zero => exact absurd rfl hnz
  | succ n => simp [jsFalsyPort]

/-- C4 witness: the two concrete resolver examples of the claim, obtained by
applying the general theorem at (tcp, 127.0.0.1, 5555) and (ipc, /tmp/x,
5555). -/
theorem formConnectionString_formats_witness :
    formConnectionString tcpConfig ChannelName.shell =
      Except.ok "tcp://127.0.0.1:5555" ∧
    formConnectionString ipcConfig ChannelName.shell =
      Except.ok "ipc:///tmp/x-5555" := by
  have h1 := formConnectionString_formats tcpConfig ChannelName.shell 5555 rfl
    (by decide)
  have h2 := formConnectionString_formats ipcConfig ChannelName.shell 5555 rfl
    (by decide)
  exact ⟨by rw [h1]; rfl, by rw [h2]; rfl⟩

/-- C5: the address resolver fails if and only if the port of the requested
channel is absent/undefined or zero; otherwise it returns an address string
without error. -/
theorem formConnectionString_error_iff (config : JupyterConnectionInfo)
    (channel : ChannelName) :
    (exceptHasError (formConnectionString config channel) = true ↔
      (channelPort config channel = none ∨
        channelPort config channel = some 0)) ∧
    (exceptHasError (formConnectionString config channel) = false ↔
      ∃ s, formConnectionString config channel = Except.ok s) := by
  unfold formConnectionString
  cases h : channelPort config channel with
  | none => simp [jsFalsyPort, exceptHasError]
  | some n => cases n <;> simp [jsFalsyPort, exceptHasError]

/-- C3 counterexample: with the shell port absent, createSocket does raise
the config error, but a transport socket has already been constructed before
the error point — the steps preceding the raiseConfigError step contain a
constructSocket step. -/
theorem createSocket_constructs_before_config_error :
    (createSocketTrace ChannelName.shell "frontend-id" badConfig).any
      isConfigErrorStep = true ∧
    ((createSocketTrace ChannelName.shell "frontend-id" badConfig).takeWhile
      (fun s => !(isConfigErrorStep s))).any isConstructStep = true := by
  exact ⟨rfl, rfl⟩

/-- C3 amended: when the port of the requested channel is missing or zero,
createSocket raises the configuration error synchronously during socket
creation and never begins connecting — but only after a transport socket has
been constructed and its identity assigned. -/
theorem createSocket_error_before_connect (config : JupyterConnectionInfo)
    (channel : ChannelName) (identity : String)
    (h : jsFalsyPort (channelPort config channel) = true) :
    createSocketTrace channel identity config =
      [CreateSocketStep.constructSocket (ZMQTypeFrontend channel)
        (config.signature_scheme.drop 5) config.key,
       CreateSocketStep.setIdentity identity,
       CreateSocketStep.raiseConfigError
         ("Port not found for channel \"" ++ channel.str ++ "\"")] := by
  unfold createSocketTrace formConnectionString
  simp [h]

/-- C3 amended witness: the trace at the concrete config missing the shell
port, obtained from the amended theorem. -/
theorem createSocket_error_before_connect_witness :
    jsFalsyPort (channelPort badConfig ChannelName.shell) = true ∧
    createSocketTrace ChannelName.shell "id-1" badConfig =
      [CreateSocketStep.constructSocket "dealer" "sha256" "secret",
       CreateSocketStep.setIdentity "id-1",
       CreateSocketStep.raiseConfigError
         "Port not found for channel \"shell\""] := by
  have h := createSocket_error_before_connect badConfig ChannelName.shell
    "id-1" rfl
  exact ⟨rfl, by rw [h]; rfl⟩

/-- C1: for every message sent through the sink with a channel tag naming a
known socket, the message handed to that socket send operation has its
session and username header fields equal to the multiplexer session header,
regardless of the values the caller supplied in those fields. -/
theorem sink_session_header_authoritative (hdr : HeaderFiller) (s : MuxState)
    (m : JupyterMessage) (ch : String) (sk : Socket)
    (hstop : s.sinkStopped = false) (hch : m.channel = some ch)
    (hne : ch ≠ "") (hsk : lookupSocket s.sockets ch = some sk)
    (hsend : sk.sendRaises = false) :
    lookupSocket (muxStep hdr s (MuxAction.sinkNext (some m))).1.sockets ch =
      some { sk with sent := sk.sent ++ [mkJmpMessage hdr m] } ∧
    fieldLookup (mkJmpMessage hdr m).header "session" = some hdr.session ∧
    fieldLookup (mkJmpMessage hdr m).header "username" = some hdr.username := by
  refine ⟨?_, ?_, ?_⟩
  · simp only [muxStep, hstop, Bool.false_eq_true, if_false, outgoingNext,
      truthyChannel, hch, hne, if_neg hne, hsk, hsend]
    rw [lookupSocket_updateSocket, hsk]
    simp [hsend]
  · exact fieldLookup_jsSpread_override _ _ _ _ rfl
  · exact fieldLookup_jsSpread_override _ _ _ _ rfl

/-- C1 witness: the concrete shell message with caller-supplied session and
username fields is recorded on the shell socket with the multiplexer session
header values. -/
theorem sink_session_header_authoritative_witness :
    lookupSocket (muxStep mainHeader openState
        (MuxAction.sinkNext (some callerMessage))).1.sockets "shell" =
      some { liveSocket with sent := [mkJmpMessage mainHeader callerMessage] } ∧
    fieldLookup (mkJmpMessage mainHeader callerMessage).header "session" =
      some "session-1" ∧
    fieldLookup (mkJmpMessage mainHeader callerMessage).header "username" =
      some "user-1" := by
  have h := sink_session_header_authoritative mainHeader openState
    callerMessage "shell" liveSocket rfl rfl (by decide) rfl rfl
  exact ⟨h.1, h.2.1, h.2.2⟩

/-- C9: for every outbound message with a known channel tag, the message
handed to the socket send operation keeps parent header, content, metadata
and buffers equal to those of the caller message; only the header is changed
by the session-header merge. -/
theorem sink_preserves_payload (hdr : HeaderFiller) (s : MuxState)
    (m : JupyterMessage) (ch : String) (sk : Socket)
    (hstop : s.sinkStopped = false) (hch : m.channel = some ch)
    (hne : ch ≠ "") (hsk : lookupSocket s.sockets ch = some sk)
    (hsend : sk.sendRaises = false) :
    lookupSocket (muxStep hdr s (MuxAction.sinkNext (some m))).1.sockets ch =
      some { sk with sent := sk.sent ++ [mkJmpMessage hdr m] } ∧
    (mkJmpMessage hdr m).parent_header = m.parent_header ∧
    (mkJmpMessage hdr m).content = m.content ∧
    (mkJmpMessage hdr m).metadata = m.metadata ∧
    (mkJmpMessage hdr m).buffers = m.buffers := by
  refine ⟨?_, rfl, rfl, rfl, rfl⟩
  simp only [muxStep, hstop, Bool.false_eq_true, if_false, outgoingNext,
    truthyChannel, hch, hne, if_neg hne, hsk, hsend]
  rw [lookupSocket_updateSocket, hsk]
  simp [hsend]

/-- C9 witness: the concrete iopub message with buffers is recorded on the
iopub socket with its payload fields untouched. -/
theorem sink_preserves_payload_witness :
    lookupSocket (muxStep mainHeader openState
        (MuxAction.sinkNext (some iopubMessage))).1.sockets "iopub" =
      some { liveSocket with sent := [mkJmpMessage mainHeader iopubMessage] } ∧
    (mkJmpMessage mainHeader iopubMessage).parent_header =
      iopubMessage.parent_header ∧
    (mkJmpMessage mainHeader iopubMessage).content = iopubMessage.content ∧
    (mkJmpMessage mainHeader iopubMessage).metadata = iopubMessage.metadata ∧
    (mkJmpMessage mainHeader iopubMessage).buffers = iopubMessage.buffers := by
  have h := sink_preserves_payload mainHeader openState iopubMessage "iopub"
    liveSocket rfl rfl (by decide) rfl rfl
  exact ⟨h.1, h.2.1, h.2.2.1, h.2.2.2.1, h.2.2.2.2⟩

/-- C6: a message presented to the sink whose channel tag is missing (or JS
falsy) or matches no known socket is dropped with exactly one non-fatal
warning: the state of the multiplexer — sockets, stopped flag, consumer
count — is unchanged, so no send operation is invoked and the duplex channel
stays open and processes later messages exactly as before. -/
theorem sink_drops_unroutable (hdr : HeaderFiller) (s : MuxState)
    (m : JupyterMessage) (hstop : s.sinkStopped = false)
    (hdrop : m.channel = none ∨ m.channel = some "" ∨
      (∀ ch, m.channel = some ch → lookupSocket s.sockets ch = none)) :
    (muxStep hdr s (MuxAction.sinkNext (some m))).1 = s ∧
    (muxStep hdr s (MuxAction.sinkNext (some m))).2.length = 1 ∧
    (muxStep hdr s (MuxAction.sinkNext (some m))).2.all Effect.isWarning =
      true := by
  obtain ⟨socks, stopped, rc⟩ := s
  have this : stopped = false := hstop
  subst this
  cases hc : m.channel with
  | none =>
    simp [muxStep, outgoingNext, truthyChannel, hc, Effect.isWarning]
  | some ch =>
    by_cases hch : ch = ""
    · subst hch
      simp [muxStep, outgoingNext, truthyChannel, hc, Effect.isWarning]
    · have hlook : lookupSocket socks ch = none := by
        rcases hdrop with h0 | h0 | h0
        · rw [hc] at h0; exact absurd h0 (by simp)
        · rw [hc] at h0
          exact absurd (by injection h0) hch
        · exact h0 ch hc
      simp [muxStep, outgoingNext, truthyChannel, hc, hch, hlook,
        Effect.isWarning]

/-- C6 witness: the concrete message tagged with the unknown channel bogus is
dropped with one warning and the open state is unchanged. -/
theorem sink_drops_unroutable_witness :
    (muxStep mainHeader openState
      (MuxAction.sinkNext (some strayMessage))).1 = openState ∧
    (muxStep mainHeader openState
      (MuxAction.sinkNext (some strayMessage))).2.length = 1 ∧
    (muxStep mainHeader openState
      (MuxAction.sinkNext (some strayMessage))).2.all Effect.isWarning =
      true := by
  have h := sink_drops_unroutable mainHeader openState strayMessage rfl
    (Or.inr (Or.inr (by intro ch hch; injection hch with he; rw [← he]; decide)))
  exact ⟨h.1, h.2.1, h.2.2⟩

/-- C7: when the send operation of the matching socket raises a transport
error, the error is caught and logged, that message alone is dropped, and
the multiplexer state is completely unchanged — the duplex channel is not
terminated and later messages are processed exactly as before. -/
theorem sink_isolates_send_error (hdr : HeaderFiller) (s : MuxState)
    (m : JupyterMessage) (ch : String) (sk : Socket)
    (hstop : s.sinkStopped = false) (hch : m.channel = some ch)
    (hne : ch ≠ "") (hsk : lookupSocket s.sockets ch = some sk)
    (hsend : sk.sendRaises = true) :
    muxStep hdr s (MuxAction.sinkNext (some m)) =
      (s, [Effect.errorSending m]) := by
  obtain ⟨socks, stopped, rc⟩ := s
  have this : stopped = false := hstop
  subst this
  simp only [] at hsk
  simp [muxStep, outgoingNext, truthyChannel, hch, hne, hsk, hsend]

/-- C7 witness: with the shell socket raising on send, the concrete shell
message is dropped with a logged error and the state is unchanged. -/
theorem sink_isolates_send_error_witness :
    muxStep mainHeader failingState (MuxAction.sinkNext (some callerMessage)) =
      (failingState, [Effect.errorSending callerMessage]) := by
  exact sink_isolates_send_error mainHeader failingState callerMessage
    "shell" failingSocket rfl rfl (by decide) rfl rfl

/-- C10: a JS null or undefined value presented to the sink is dropped
through the same non-fatal path as a message lacking a channel: the handler
warns, throws nothing, leaves the state unchanged, and the duplex channel
stays usable. -/
theorem sink_drops_null_message (hdr : HeaderFiller) (s : MuxState)
    (hstop : s.sinkStopped = false) :
    muxStep hdr s (MuxAction.sinkNext none) =
      (s, [Effect.warnNoChannel none]) := by
  obtain ⟨socks, stopped, rc⟩ := s
  have this : stopped = false := hstop
  subst this
  simp [muxStep, outgoingNext]

/-- C10 witness: the null message at the concrete open state. -/
theorem sink_drops_null_message_witness :
    muxStep mainHeader openState (MuxAction.sinkNext none) =
      (openState, [Effect.warnNoChannel none]) :=
  sink_drops_null_message mainHeader openState rfl

/-- C2 counterexample: with one consumer subscribed to the merged source and
the sink not completed, the unsubscription of all consumers (refCount drops
to zero) closes no socket at all — every socket still has closeCount zero
and even keeps its connect listener — refuting the claim that either
termination path closes all four sockets exactly once. -/
theorem unsubscribe_does_not_close_sockets :
    (muxStep mainHeader openState MuxAction.unsubscribe).1.refCount = 0 ∧
    ((muxStep mainHeader openState MuxAction.unsubscribe).1.sockets.all
      (fun p => p.2.closeCount == 0)) = true ∧
    ((muxStep mainHeader openState MuxAction.unsubscribe).1.sockets.all
      (fun p => p.2.listeners == 1)) = true := by
  exact ⟨rfl, rfl, rfl⟩

/-- C2 amended: completing the sink detaches all listeners of every owned
socket and closes each socket that has a close method exactly once, and
repeating the completion is a no-op that closes no socket a second time; the
unsubscription path, by contrast, only removes the message listeners and
closes nothing (see the counterexample). -/
theorem complete_closes_once_idempotent (hdr : HeaderFiller) (s : MuxState)
    (hstop : s.sinkStopped = false) :
    (∀ name sk, lookupSocket s.sockets name = some sk → sk.hasClose = true →
      lookupSocket (muxStep hdr s MuxAction.sinkComplete).1.sockets name =
        some { sk with listeners := 0, closeCount := sk.closeCount + 1 }) ∧
    (muxStep hdr s MuxAction.sinkComplete).1.sinkStopped = true ∧
    muxStep hdr (muxStep hdr s MuxAction.sinkComplete).1
        MuxAction.sinkComplete =
      ((muxStep hdr s MuxAction.sinkComplete).1, []) := by
  refine ⟨?_, ?_, ?_⟩
  · intro name sk hsk hclose
    simp only [muxStep, hstop, Bool.false_eq_true, if_false]
    rw [lookupSocket_mapSockets, hsk]
    simp [teardownSocket, hclose]
  · simp [muxStep, hstop]
  · simp [muxStep, hstop]

/-- C2 amended witness: completing the sink of the concrete open state closes
the shell socket once and detaches its listeners, marks the sink stopped, and
a second completion changes nothing. -/
theorem complete_closes_once_idempotent_witness :
    lookupSocket (muxStep mainHeader openState
        MuxAction.sinkComplete).1.sockets "shell" =
      some { listeners := 0, closeCount := 1, hasClose := true,
             sendRaises := false, sent := [] } ∧
    (muxStep mainHeader openState MuxAction.sinkComplete).1.sinkStopped =
      true ∧
    muxStep mainHeader (muxStep mainHeader openState
        MuxAction.sinkComplete).1 MuxAction.sinkComplete =
      ((muxStep mainHeader openState MuxAction.sinkComplete).1, []) := by
  have h := complete_closes_once_idempotent mainHeader openState rfl
  exact ⟨h.1 "shell" liveSocket rfl rfl, h.2.1, h.2.2⟩

/-- C8: every inbound event received on a socket is exposed as a message
whose channel field equals that socket channel name, whose idents field is
absent, and whose remaining fields are copied unchanged from the received
body. -/
theorem incoming_stamps_channel_strips_idents (name : String)
    (body : IncomingBody) :
    (routeIncoming name body).channel = some name ∧
    (routeIncoming name body).idents = none ∧
    (routeIncoming name body).header = body.header ∧
    (routeIncoming name body).parent_header = body.parent_header ∧
    (routeIncoming name body).content = body.content ∧
    (routeIncoming name body).metadata = body.metadata ∧
    (routeIncoming name body).buffers = body.buffers :=
  ⟨rfl, rfl, rfl, rfl, rfl, rfl, rfl⟩

end EnchannelZmq
